import Mathlib

/-
Verification development for the scripted UI verification harness repository.

The repository consists of straight-line Playwright scripts
(src/verification/verify_csp.py, verify_drag_drop.py, verify_messgeraet.py,
verify_settings.py, verify_stromkreis.py, src/verify_toast.py).  Each script
is embedded below as a function from a world of per-call outcomes (a bit per
fallible browser call, true = the call succeeds, false = it raises) to a run
result: the ordered trace of attempted operations plus the uncaught exception,
if any.  A raising call is still recorded in the trace (it was attempted);
everything after it is governed by the script's own try/except/finally
structure, which is transcribed literally from the Python sources.

The harness engine itself (session manager, wait engine, interaction
executor, artifact writer) is not present in the repository: the scripts are
its callers.  Those components are modelled from the spec where a claim is
about them, and each such definition is marked as modelled from the spec.
-/

/-- One browser-level operation attempted by a script, as recorded in a run
trace.  Constructors mirror the Playwright calls appearing in the sources. -/
inductive Op where
  | launch
  | newPage
  | newContext (width height : Nat)
  | onEvent (event : String)
  | goto (url : String)
  | waitSelector (sel : String)
  | waitFor (sel state : String)
  | waitLoadState (state : String)
  | waitTimeout (ms : Nat)
  | sleep (ms : Nat)
  | click (sel : String)
  | fill (sel text : String)
  | evaluate (code : String)
  | locatorCount (sel : String)
  | isVisible (sel : String)
  | screenshot (path : String)
  | printed (msg : String)
  | close
deriving DecidableEq

/-- Result of running a script (or a piece of one): the trace of attempted
operations in order, and the uncaught exception, if one escaped. -/
structure RunResult where
  trace : List Op
  exc : Option String
deriving DecidableEq

/-- One instruction of a straight-line script piece: the outcome bit of the
call (true = succeeds), the operation, and the exception message raised when
the bit is false. -/
abbrev Instr := Bool × Op × String

/-- Run a straight-line sequence of instructions.  Every instruction reached
is recorded in the trace; the first failing one stops execution and its
message becomes the exception. -/
def runSeq : List Op → List Instr → RunResult
  | done, [] => ⟨done, none⟩
  | done, (b, o, m) :: rest =>
      if b then runSeq (done ++ [o]) rest else ⟨done ++ [o], some m⟩

/-- The operations of an instruction list, in order. -/
def opsOf (l : List Instr) : List Op := l.map fun i => i.2.1

/-- Whether every instruction of the list succeeds. -/
def allOk (l : List Instr) : Bool := l.all fun i => i.1

/-- Whether an operation is a browser close. -/
def isClose : Op → Bool
  | Op.close => true
  | _ => false

/-- Number of browser close operations in a trace. -/
def closeCount (t : List Op) : Nat := t.countP fun o => isClose o

/-- Process exit status of a run: zero when no exception escaped, one
otherwise (Python exits non-zero exactly on an uncaught exception). -/
def exitStatus (r : RunResult) : Nat :=
  match r.exc with
  | none => 0
  | some _ => 1

/-- Embedding of verify_csp (src/verification/verify_csp.py).  The browser
launch, page creation, listener registrations and the loading print precede
the try block; the five fallible calls inside the try are governed by the
world bits; the except clause prints the error; the finally clause closes
the browser. -/
def cspInstrs (w : Fin 5 → Bool) : List Instr :=
  [(w 0, Op.goto "file://cwd/index.html", "goto file://cwd/index.html"),
   (w 1, Op.waitTimeout 3000, "wait_for_timeout 3000"),
   (w 2, Op.evaluate "typeof XLSX", "evaluate typeof XLSX"),
   (true, Op.printed "Is XLSX loaded", ""),
   (w 3, Op.locatorCount "meta[http-equiv=Content-Security-Policy]",
     "locator count meta[http-equiv=Content-Security-Policy]"),
   (true, Op.printed "CSP meta tag count", ""),
   (w 4, Op.screenshot "verification/csp_check.png",
     "screenshot verification/csp_check.png")]

/-- verify_csp: try the body; on any exception print it; always close. -/
def verify_csp (w : Fin 5 → Bool) : RunResult :=
  let body := runSeq
    [Op.launch, Op.newPage, Op.onEvent "console", Op.onEvent "pageerror",
     Op.printed "Loading file URL"] (cspInstrs w)
  match body.exc with
  | none => ⟨body.trace ++ [Op.close], none⟩
  | some e => ⟨body.trace ++ [Op.printed ("Error: " ++ e), Op.close], none⟩

/-- Embedding of verify_messgeraet (src/verification/verify_messgeraet.py):
a single straight-line sequence with no try block; time.sleep calls are
infallible, the final browser.close() runs only if everything before it
succeeded. -/
def messgeraetInstrs (w : Fin 8 → Bool) : List Instr :=
  [(w 0, Op.goto "http://localhost:8080/index.html",
     "goto http://localhost:8080/index.html"),
   (w 1, Op.waitSelector ".sidebar", "wait_for_selector .sidebar"),
   (w 2, Op.click "a[data-view=messgeraet]", "click a[data-view=messgeraet]"),
   (w 3, Op.waitSelector "#messgeraetContainer .messgeraet-module",
     "wait_for_selector #messgeraetContainer .messgeraet-module"),
   (true, Op.sleep 1000, ""),
   (w 4, Op.screenshot "verification/messgeraet_list.png",
     "screenshot verification/messgeraet_list.png"),
   (true, Op.printed "Screenshot of list view taken.", ""),
   (w 5, Op.click "button[data-messgeraet-action=add]",
     "click button[data-messgeraet-action=add]"),
   (w 6, Op.waitSelector "#messgeraetFormModal.modal.is-open",
     "wait_for_selector #messgeraetFormModal.modal.is-open"),
   (true, Op.sleep 500, ""),
   (w 7, Op.screenshot "verification/messgeraet_modal.png",
     "screenshot verification/messgeraet_modal.png"),
   (true, Op.printed "Screenshot of modal taken.", "")]

/-- verify_messgeraet: the whole body including the trailing close is one
unguarded sequence. -/
def verify_messgeraet (w : Fin 8 → Bool) : RunResult :=
  runSeq [Op.launch, Op.newPage]
    (messgeraetInstrs w ++ [(true, Op.close, "")])

/-- Embedding of the verify_settings function body
(src/verification/verify_settings.py lines 3-21): six fallible calls on a
page handed in by the caller. -/
def settingsInstrs (w : Fin 6 → Bool) : List Instr :=
  [(w 0, Op.goto "http://localhost:8000/index.html",
     "goto http://localhost:8000/index.html"),
   (w 1, Op.click "a[href=#settings]", "click a[href=#settings]"),
   (w 2, Op.click "text=Mit Server synchronisieren",
     "click text=Mit Server synchronisieren"),
   (w 3, Op.waitFor "#api-config-section" "visible",
     "wait_for #api-config-section visible"),
   (w 4, Op.waitFor "#api-base-url" "visible", "wait_for #api-base-url visible"),
   (w 5, Op.screenshot "verification/settings.png",
     "screenshot verification/settings.png")]

/-- The verify_settings function applied to the page created by the module
main block. -/
def verify_settings (w : Fin 6 → Bool) : RunResult :=
  runSeq [] (settingsInstrs w)

/-- The module main block of verify_settings.py: launch, new page, try
verify_settings(page) finally browser.close().  The close always runs; an
exception from the body escapes after it. -/
def verify_settings_main (w : Fin 6 → Bool) : RunResult :=
  let r := verify_settings w
  ⟨[Op.launch, Op.newPage] ++ r.trace ++ [Op.close], r.exc⟩

/-- Embedding of verify_drag_drop.py.  Only the drop-zone visibility wait is
guarded by a try; its except clause prints, attempts a debug screenshot and
returns from the function, so the trailing steps and the close are skipped. -/
def dragPart2Instrs (w : Fin 11 → Bool) : List Instr :=
  [(w 6, Op.screenshot "verification/normal_state.png",
     "screenshot verification/normal_state.png"),
   (w 7, Op.evaluate "dispatchEvent dragenter on file-drop-zone",
     "evaluate dispatchEvent dragenter"),
   (w 8, Op.screenshot "verification/drag_over_state.png",
     "screenshot verification/drag_over_state.png"),
   (w 9, Op.evaluate "classList contains drag-over on file-drop-zone",
     "evaluate classList contains drag-over"),
   (true, Op.printed "Is drag-over class present", ""),
   (w 10, Op.evaluate "getAttribute tabindex of file-drop-zone",
     "evaluate getAttribute tabindex"),
   (true, Op.printed "Tab index", ""),
   (true, Op.close, "")]

/-- The run function of verify_drag_drop.py. -/
def dragDropRun (w : Fin 11 → Bool) : RunResult :=
  let part1 := runSeq
    [Op.launch, Op.newPage, Op.onEvent "console", Op.onEvent "pageerror"]
    [(w 0, Op.goto "http://localhost:8000/index.html",
       "goto http://localhost:8000/index.html"),
     (w 1, Op.waitLoadState "networkidle", "wait_for_load_state networkidle"),
     (true, Op.printed "Clicking workflow link...", ""),
     (w 2, Op.click "a[href=#workflow]", "click a[href=#workflow]"),
     (w 3, Op.waitTimeout 500, "wait_for_timeout 500")]
  match part1.exc with
  | some e => ⟨part1.trace, some e⟩
  | none =>
    if w 4 = false then
      let t := part1.trace ++
        [Op.waitFor "#file-drop-zone" "visible", Op.printed "Wait failed",
         Op.screenshot "verification/debug_fail.png"]
      if w 5 = false then ⟨t, some "screenshot verification/debug_fail.png"⟩
      else ⟨t, none⟩
    else
      runSeq (part1.trace ++ [Op.waitFor "#file-drop-zone" "visible"])
        (dragPart2Instrs w)

/-- Embedding of the verify_stromkreis function
(src/verification/verify_stromkreis.py lines 3-41).  The three is_visible
queries return booleans (bits 3, 5, 6) and do not raise; fills happen only
in the visible branches; the first locator match (.first) is folded into the
selector label. -/
def stromInstrs (w : Fin 9 → Bool) : List Instr :=
  [(true, Op.printed "Navigating to test page...", ""),
   (w 0, Op.goto "http://localhost:8080/test-editable-stromkreise.html",
     "goto http://localhost:8080/test-editable-stromkreise.html"),
   (w 1, Op.waitSelector ".positions-table", "wait_for_selector .positions-table"),
   (w 2, Op.waitSelector "tr.position-row", "wait_for_selector tr.position-row"),
   (true, Op.printed "Table loaded. Checking fields...", ""),
   (true, Op.isVisible "input[data-field=position.messwerte.risoOhne]", "")] ++
  (if w 3 then
    [(true, Op.printed "Riso Ohne input is visible.", ""),
     (w 4, Op.fill "input[data-field=position.messwerte.risoOhne]" "123",
       "fill input[data-field=position.messwerte.risoOhne]")]
   else [(true, Op.printed "ERROR: Riso Ohne input not visible!", "")]) ++
  [(true, Op.isVisible "input[data-field=position.messwerte.risoMit]", "")] ++
  (if w 5 then [(true, Op.printed "Riso Mit input is visible.", "")]
   else [(true, Op.printed "ERROR: Riso Mit input not visible!", "")]) ++
  [(true, Op.isVisible "input[data-field=position.kabel.typ]", "")] ++
  (if w 6 then
    [(true, Op.printed "Kabel Typ input is visible.", ""),
     (w 7, Op.fill "input[data-field=position.kabel.typ]" "NYM-Test",
       "fill input[data-field=position.kabel.typ]")]
   else [(true, Op.printed "ERROR: Kabel Typ input not visible!", "")]) ++
  [(w 8, Op.screenshot "verification/verification.png",
     "screenshot verification/verification.png"),
   (true, Op.printed "Screenshot saved to verification/verification.png", "")]

/-- The verify_stromkreis function applied to the first page of the main
block. -/
def verify_stromkreis (w : Fin 9 → Bool) : RunResult :=
  runSeq [] (stromInstrs w)

/-- Embedding of the verify_table function
(src/verification/verify_stromkreis.py lines 42-71). -/
def tableInstrs (w : Fin 10 → Bool) : List Instr :=
  [(true, Op.printed "Navigating to page...", ""),
   (w 0, Op.goto "http://localhost:8000/test-stromkreise-final.html",
     "goto http://localhost:8000/test-stromkreise-final.html"),
   (true, Op.printed "Waiting for table...", ""),
   (w 1, Op.waitSelector ".positions-table", "wait_for_selector .positions-table"),
   (w 2, Op.waitTimeout 1000, "wait_for_timeout 1000"),
   (true, Op.printed "Taking screenshot 1...", ""),
   (w 3, Op.screenshot "/home/jules/verification/stromkreis_table_left.png",
     "screenshot stromkreis_table_left.png"),
   (true, Op.printed "Scrolling 200px...", ""),
   (w 4, Op.evaluate "element scrollLeft = 200", "evaluate scrollLeft 200"),
   (w 5, Op.waitTimeout 500, "wait_for_timeout 500"),
   (w 6, Op.screenshot "/home/jules/verification/stromkreis_table_scrolled_200.png",
     "screenshot stromkreis_table_scrolled_200.png"),
   (true, Op.printed "Scrolling 500px...", ""),
   (w 7, Op.evaluate "element scrollLeft = 500", "evaluate scrollLeft 500"),
   (w 8, Op.waitTimeout 500, "wait_for_timeout 500"),
   (w 9, Op.screenshot "/home/jules/verification/stromkreis_table_scrolled_500.png",
     "screenshot stromkreis_table_scrolled_500.png")]

/-- The verify_table function applied to the second page of the main block. -/
def verify_table (w : Fin 10 → Bool) : RunResult :=
  runSeq [] (tableInstrs w)

/-- Continuation of the verify_stromkreis.py main block after the first try:
if the first scenario raised, its error is printed and the error screenshot
attempted (outcome bit berr; when it fails its exception escapes the whole
block); otherwise, and after a successful handler, a fresh 1280x720 context
and page are created and verify_table runs under try/finally browser.close():
the close always runs there and an exception from verify_table escapes after
it. -/
def stromMainCont : RunResult → Bool → (Fin 10 → Bool) → RunResult
  | ⟨t1, some e⟩, berr, w2 =>
    let t := [Op.launch, Op.newPage] ++ t1 ++
      [Op.printed ("Error: " ++ e), Op.screenshot "verification/error.png"]
    if berr = false then ⟨t, some "screenshot verification/error.png"⟩
    else
      let r2 := verify_table w2
      ⟨t ++ [Op.newContext 1280 720, Op.newPage] ++ r2.trace ++ [Op.close],
       r2.exc⟩
  | ⟨t1, none⟩, _, w2 =>
    let r2 := verify_table w2
    ⟨[Op.launch, Op.newPage] ++ t1 ++ [Op.newContext 1280 720, Op.newPage] ++
      r2.trace ++ [Op.close], r2.exc⟩

/-- The module main block of verify_stromkreis.py (lines 73-88): launch, new
page, run verify_stromkreis under the try, and continue as above. -/
def verify_stromkreis_main (w1 : Fin 9 → Bool) (berr : Bool)
    (w2 : Fin 10 → Bool) : RunResult :=
  stromMainCont (verify_stromkreis w1) berr w2

/-- Result of a wait engine call. -/
inductive WaitResult where
  | success (elapsed : Nat)
  | timedOut (desc : String) (elapsed : Nat)
deriving DecidableEq

/-- Modelled from the spec: the polling loop of the Wait Engine (section
4.2), which is not present in the repository (the scripts only call it).
Time is measured in polling intervals; at each tick the engine first checks
whether the timeout budget is exhausted and otherwise evaluates the
condition at the current elapsed time. -/
def awaitGo (cond : Nat → Bool) (desc : String) : Nat → Nat → WaitResult
  | 0, t => WaitResult.timedOut desc t
  | fuel + 1, t =>
      if cond t then WaitResult.success t else awaitGo cond desc fuel (t + 1)

/-- Modelled from the spec: await_condition(session, condition, timeout) of
the Wait Engine (section 4.2), polling from elapsed time zero with a finite
timeout budget. -/
def await_condition (cond : Nat → Bool) (desc : String) (timeout : Nat) :
    WaitResult :=
  awaitGo cond desc timeout 0

/-- A DOM snapshot, for the spec-modelled engine components: each selector
names the list of matching element ids in document order. -/
abbrev Dom := String → List Nat

/-- Errors of the spec-modelled Interaction Executor (section 4.3). -/
inductive InteractionError where
  | elementNotFound (sel : String)
  | sessionClosed
deriving DecidableEq

/-- The element action performed by a successful locating interaction. -/
inductive ElemAction where
  | clicked (elem : Nat)
  | filled (elem : Nat) (text : String)
  | dispatched (elem : Nat) (event : String)
deriving DecidableEq

/-- Modelled from the spec: resolution of the first matching element (index
0 under document order) by the Interaction Executor (section 4.3), absent
from the repository. -/
def resolveFirst (dom : Dom) (sel : String) : Except InteractionError Nat :=
  match dom sel with
  | [] => Except.error (InteractionError.elementNotFound sel)
  | e :: _ => Except.ok e

/-- Modelled from the spec: click(session, selector) (section 4.3). -/
def click (sessionOpen : Bool) (dom : Dom) (sel : String) :
    Except InteractionError ElemAction :=
  if sessionOpen = false then Except.error InteractionError.sessionClosed
  else (resolveFirst dom sel).map ElemAction.clicked

/-- Modelled from the spec: fill(session, selector, text) (section 4.3). -/
def fill (sessionOpen : Bool) (dom : Dom) (sel text : String) :
    Except InteractionError ElemAction :=
  if sessionOpen = false then Except.error InteractionError.sessionClosed
  else (resolveFirst dom sel).map fun e => ElemAction.filled e text

/-- Modelled from the spec: dispatch_event(session, selector, event_name)
(section 4.3). -/
def dispatch_event (sessionOpen : Bool) (dom : Dom) (sel event : String) :
    Except InteractionError ElemAction :=
  if sessionOpen = false then Except.error InteractionError.sessionClosed
  else (resolveFirst dom sel).map fun e => ElemAction.dispatched e event

/-- Target of an Artifact Writer capture (section 4.5). -/
inductive CaptureTarget where
  | fullPage
  | selector (sel : String)
deriving DecidableEq

/-- Errors of the spec-modelled Artifact Writer. -/
inductive CaptureError where
  | elementNotFound (sel : String)
  | sessionClosed
deriving DecidableEq

/-- Modelled from the spec: capture(session, target, path) of the Artifact
Writer (section 4.5), absent from the repository.  The file system is the
list of complete files present; a capture either adds the complete file at
the given path or fails leaving the file system unchanged (atomicity). -/
def capture (sessionOpen : Bool) (dom : Dom) (target : CaptureTarget)
    (path : String) (files : List String) : List String × Option CaptureError :=
  if sessionOpen = false then (files, some CaptureError.sessionClosed)
  else
    match target with
    | CaptureTarget.fullPage => (path :: files, none)
    | CaptureTarget.selector s =>
      match dom s with
      | [] => (files, some (CaptureError.elementNotFound s))
      | _ :: _ => (path :: files, none)

/-- State of a Session (section 4.1): live, failed, or closed. -/
inductive SessionState where
  | active
  | failed
  | shut
deriving DecidableEq

/-- A Session handle of the spec-modelled Session Manager: its lifecycle
state and whether the underlying browser-process resources are still held. -/
structure Session where
  state : SessionState
  resourcesHeld : Bool
deriving DecidableEq

/-- Modelled from the spec: close(session) of the Session Manager (section
4.1), absent from the repository.  Closing releases the resources; closing
an already-closed session is a no-op; no call raises. -/
def closeSession (s : Session) : Session × Option String :=
  match s.state with
  | SessionState.shut => (s, none)
  | _ => (⟨SessionState.shut, false⟩, none)

/-- The drop-zone element of the page under test, reduced to its class
list. -/
structure DropZone where
  classes : List String
deriving DecidableEq

/-- classList.add semantics: append the class unless already present. -/
def classListAdd (z : DropZone) (c : String) : DropZone :=
  if c ∈ z.classes then z else ⟨z.classes ++ [c]⟩

/-- Modelled from the spec: the dragenter listener of the application's
drop-zone element (the application under test is not in the repository);
the spec's drag-state scenario says the listener sets the drag-over class. -/
def onDragenter (z : DropZone) : DropZone := classListAdd z "drag-over"

/-- Synchronous synthetic event dispatch at the drop zone, as performed by
the evaluate call of verify_drag_drop.py (lines 41-47): handlers run to
completion before dispatchEvent returns. -/
def dispatchEvent (z : DropZone) (eventName : String) : DropZone :=
  if eventName = "dragenter" then onDragenter z else z

/-- classList.contains, as queried by verify_drag_drop.py line 51. -/
def classListContains (z : DropZone) (c : String) : Bool :=
  decide (c ∈ z.classes)


theorem runSeq_cons (done : List Op) (b : Bool) (o : Op) (m : String)
    (rest : List Instr) :
    runSeq done ((b, o, m) :: rest) =
      if b then runSeq (done ++ [o]) rest else ⟨done ++ [o], some m⟩ := rfl

theorem runSeq_ok : ∀ (l : List Instr) (done : List Op), allOk l = true →
    runSeq done l = ⟨done ++ opsOf l, none⟩ := by
  intro l
  induction l with
  | nil => intro done _; simp [runSeq, opsOf]
  | cons i rest ih =>
    obtain ⟨b, o, m⟩ := i
    intro done h
    rw [allOk, List.all_cons, Bool.and_eq_true] at h
    rw [runSeq_cons, if_pos h.1, ih (done ++ [o]) h.2]
    simp [opsOf]

theorem runSeq_exc_none_iff : ∀ (l : List Instr) (done : List Op),
    (runSeq done l).exc = none ↔ allOk l = true := by
  intro l
  induction l with
  | nil => intro done; simp [runSeq, allOk]
  | cons i rest ih =>
    obtain ⟨b, o, m⟩ := i
    intro done
    rw [runSeq_cons]
    cases b with
    | true => simp [ih, allOk]
    | false => simp [allOk]

theorem runSeq_done_mem : ∀ (l : List Instr) (done : List Op) (x : Op),
    x ∈ done → x ∈ (runSeq done l).trace := by
  intro l
  induction l with
  | nil => intro done x hx; simpa [runSeq] using hx
  | cons i rest ih =>
    obtain ⟨b, o, m⟩ := i
    intro done x hx
    rw [runSeq_cons]
    cases b with
    | true => simpa using ih (done ++ [o]) x (List.mem_append_left _ hx)
    | false => simp; exact Or.inl hx

theorem runSeq_head_mem (done : List Op) (b : Bool) (o : Op) (m : String)
    (rest : List Instr) : o ∈ (runSeq done ((b, o, m) :: rest)).trace := by
  rw [runSeq_cons]
  cases b with
  | true => exact runSeq_done_mem rest (done ++ [o]) o (by simp)
  | false => simp

theorem runSeq_trace_sub : ∀ (l : List Instr) (done : List Op) (x : Op),
    x ∈ (runSeq done l).trace → x ∈ done ∨ x ∈ opsOf l := by
  intro l
  induction l with
  | nil => intro done x hx; simp [runSeq] at hx; exact Or.inl hx
  | cons i rest ih =>
    obtain ⟨b, o, m⟩ := i
    intro done x hx
    rw [runSeq_cons] at hx
    cases b with
    | true =>
      rcases ih (done ++ [o]) x (by simpa using hx) with h | h
      · rcases List.mem_append.mp h with h | h
        · exact Or.inl h
        · exact Or.inr (by simp [opsOf]; exact Or.inl (by simpa using h))
      · exact Or.inr (by simp [opsOf] at h ⊢; exact Or.inr h)
    | false =>
      simp at hx
      rcases hx with h | h
      · exact Or.inl h
      · exact Or.inr (by simp [opsOf, h])

theorem closeCount_append (a b : List Op) :
    closeCount (a ++ b) = closeCount a + closeCount b :=
  List.countP_append _ _ _

theorem closeCount_cons (o : Op) (t : List Op) :
    closeCount (o :: t) = closeCount t + (if isClose o then 1 else 0) := by
  simp [closeCount, List.countP_cons]

theorem runSeq_closeCount : ∀ (l : List Instr) (done : List Op),
    closeCount (opsOf l) = 0 →
    closeCount (runSeq done l).trace = closeCount done := by
  intro l
  induction l with
  | nil => intro done _; simp [runSeq]
  | cons i rest ih =>
    obtain ⟨b, o, m⟩ := i
    intro done h
    rw [opsOf, List.map_cons, closeCount_cons] at h
    have ho : isClose o = false := by
      cases hio : isClose o
      · rfl
      · rw [hio] at h; simp at h
    rw [ho] at h
    simp at h
    have hrest : closeCount (opsOf rest) = 0 := by simpa [opsOf] using h
    rw [runSeq_cons]
    cases b with
    | true =>
      rw [if_pos rfl, ih (done ++ [o]) hrest, closeCount_append,
        closeCount_cons]
      simp [closeCount, ho]
    | false =>
      simp [closeCount_append, closeCount_cons, closeCount, ho]

theorem runSeq_append : ∀ (l₁ l₂ : List Instr) (done : List Op),
    runSeq done (l₁ ++ l₂) =
      match runSeq done l₁ with
      | ⟨t, none⟩ => runSeq t l₂
      | ⟨t, some e⟩ => ⟨t, some e⟩ := by
  intro l₁
  induction l₁ with
  | nil => intro l₂ done; simp [runSeq]
  | cons i rest ih =>
    obtain ⟨b, o, m⟩ := i
    intro l₂ done
    rw [List.cons_append, runSeq_cons, runSeq_cons]
    cases b with
    | true => simp [ih]
    | false => simp

theorem runSeq_fail : ∀ (l : List Instr) (done : List Op), allOk l = false →
    ∃ e, (runSeq done l).exc = some e := by
  intro l done h
  rcases he : (runSeq done l).exc with _ | e
  · rw [runSeq_exc_none_iff] at he
    rw [he] at h
    exact absurd h (by simp)
  · exact ⟨e, rfl⟩

/-- Full case analysis of the wait engine polling loop: it either succeeds at
the first poll tick satisfying the condition, strictly inside the budget, or
consumes the whole budget, times out at exactly the budget, and no tick in
the budget satisfied the condition. -/
theorem awaitGo_cases (cond : Nat → Bool) (desc : String) :
    ∀ (fuel t : Nat),
      (∃ e, awaitGo cond desc fuel t = WaitResult.success e ∧ cond e = true ∧
        t ≤ e ∧ e < t + fuel) ∨
      (awaitGo cond desc fuel t = WaitResult.timedOut desc (t + fuel) ∧
        ∀ k, t ≤ k → k < t + fuel → cond k = false) := by
  intro fuel
  induction fuel with
  | zero =>
    intro t
    exact Or.inr ⟨rfl, fun k hk1 hk2 => absurd hk1 (by omega)⟩
  | succ n ih =>
    intro t
    cases hc : cond t with
    | true =>
      exact Or.inl ⟨t, by simp [awaitGo, hc], hc, le_refl t, by omega⟩
    | false =>
      rcases ih (t + 1) with ⟨e, he, hce, hte, hlt⟩ | ⟨heq, hall⟩
      · exact Or.inl ⟨e, by simp [awaitGo, hc, he], hce, by omega, by omega⟩
      · refine Or.inr ⟨by simp [awaitGo, hc]; rw [heq]; congr 1; omega, ?_⟩
        intro k hk1 hk2
        rcases Nat.eq_or_lt_of_le hk1 with h | h
        · rw [← h]; exact hc
        · exact hall k (by omega) (by omega)

/-- C2: for every Wait call with a finite timeout, if the condition becomes
true within the timeout window the call returns success strictly before the
timeout elapses; otherwise it raises a TimeoutError carrying the condition
description whose reported elapsed time is at least the configured timeout;
the call always returns (no indefinite blocking, no crash). -/
theorem C2_await_condition_spec (cond : Nat → Bool) (desc : String)
    (timeout : Nat) :
    ((∃ t, t < timeout ∧ cond t = true) →
      ∃ e, await_condition cond desc timeout = WaitResult.success e ∧
        e < timeout ∧ cond e = true) ∧
    ((∀ t, t < timeout → cond t = false) →
      ∃ e, await_condition cond desc timeout = WaitResult.timedOut desc e ∧
        timeout ≤ e) := by
  constructor
  · rintro ⟨t, ht, hct⟩
    rcases awaitGo_cases cond desc timeout 0 with ⟨e, he, hce, _, hlt⟩ |
        ⟨_, hall⟩
    · exact ⟨e, he, by omega, hce⟩
    · rw [hall t (by omega) (by omega)] at hct
      exact absurd hct (by simp)
  · intro hall
    rcases awaitGo_cases cond desc timeout 0 with ⟨e, _, hce, hte, hlt⟩ |
        ⟨heq, _⟩
    · rw [hall e (by omega)] at hce
      exact absurd hce (by simp)
    · exact ⟨0 + timeout, heq, by omega⟩

/-- Witness for C2: a condition becoming true at tick 2 succeeds before a
timeout of 5; a never-true condition times out at elapsed 5. -/
theorem C2_await_condition_witness :
    ((∃ t, t < 5 ∧ (fun u => decide (2 ≤ u)) t = true) ∧
      (∃ e, await_condition (fun u => decide (2 ≤ u)) "drop-zone visible" 5 =
        WaitResult.success e ∧ e < 5 ∧ (fun u => decide (2 ≤ u)) e = true)) ∧
    (∃ e, await_condition (fun _ => false) "drop-zone visible" 5 =
      WaitResult.timedOut "drop-zone visible" e ∧ 5 ≤ e) :=
  ⟨⟨⟨2, by decide, by decide⟩,
    (C2_await_condition_spec (fun u => decide (2 ≤ u)) "drop-zone visible"
      5).1 ⟨2, by decide, by decide⟩⟩,
   (C2_await_condition_spec (fun _ => false) "drop-zone visible" 5).2
     (fun _ _ => rfl)⟩

/-- C5: every locating interaction (click, fill, dispatch_event) on an open
session acts on the first element matching the selector in document order
(the head of the match list, index 0), and fails with ElementNotFound when
the selector matches zero elements; the operations are total functions, so
they neither hang nor silently succeed. -/
theorem C5_interaction_first_match (dom : Dom) (sel text event : String) :
    (dom sel = [] →
      click true dom sel =
        Except.error (InteractionError.elementNotFound sel) ∧
      fill true dom sel text =
        Except.error (InteractionError.elementNotFound sel) ∧
      dispatch_event true dom sel event =
        Except.error (InteractionError.elementNotFound sel)) ∧
    (∀ e rest, dom sel = e :: rest →
      click true dom sel = Except.ok (ElemAction.clicked e) ∧
      fill true dom sel text = Except.ok (ElemAction.filled e text) ∧
      dispatch_event true dom sel event =
        Except.ok (ElemAction.dispatched e event)) := by
  constructor
  · intro h
    refine ⟨?_, ?_, ?_⟩ <;> simp [click, fill, dispatch_event, resolveFirst, h, Except.map]
  · intro e rest h
    refine ⟨?_, ?_, ?_⟩ <;> simp [click, fill, dispatch_event, resolveFirst, h, Except.map]

/-- A sample DOM for the interaction and capture witnesses: the zone selector
matches elements 3 and 9 in document order, everything else matches nothing. -/
def sampleDom : Dom := fun s => if s = "#zone" then [3, 9] else []

/-- Witness for C5 at a concrete DOM: zero matches give ElementNotFound, and
the operations act on element 3, the first of the two matches. -/
theorem C5_interaction_witness :
    (click true sampleDom "#missing" =
      Except.error (InteractionError.elementNotFound "#missing") ∧
     fill true sampleDom "#missing" "123" =
      Except.error (InteractionError.elementNotFound "#missing") ∧
     dispatch_event true sampleDom "#missing" "dragenter" =
      Except.error (InteractionError.elementNotFound "#missing")) ∧
    (click true sampleDom "#zone" = Except.ok (ElemAction.clicked 3) ∧
     fill true sampleDom "#zone" "123" = Except.ok (ElemAction.filled 3 "123") ∧
     dispatch_event true sampleDom "#zone" "dragenter" =
      Except.ok (ElemAction.dispatched 3 "dragenter")) :=
  ⟨(C5_interaction_first_match sampleDom "#missing" "123" "dragenter").1
     (by decide),
   (C5_interaction_first_match sampleDom "#zone" "123" "dragenter").2 3 [9]
     (by decide)⟩

/-- C6: a capture whose target is a selector matching zero elements fails
with ElementNotFound and creates no output file; a full-page capture never
fails for a zero-match reason; and any failing capture leaves the file
system unchanged (no partial file). -/
theorem C6_capture_spec (dom : Dom) (sel path : String) (files : List String) :
    (dom sel = [] →
      capture true dom (CaptureTarget.selector sel) path files =
        (files, some (CaptureError.elementNotFound sel)) ∧
      (path ∉ files →
        path ∉ (capture true dom (CaptureTarget.selector sel) path files).1)) ∧
    (∀ (sessionOpen : Bool) (s : String),
      (capture sessionOpen dom CaptureTarget.fullPage path files).2 ≠
        some (CaptureError.elementNotFound s)) ∧
    (∀ (sessionOpen : Bool) (target : CaptureTarget) (err : CaptureError),
      (capture sessionOpen dom target path files).2 = some err →
      (capture sessionOpen dom target path files).1 = files) := by
  refine ⟨?_, ?_, ?_⟩
  · intro h
    constructor
    · simp [capture, h]
    · intro hp
      simp [capture, h]
      exact hp
  · intro so s
    cases so <;> simp [capture]
  · intro so target err h
    cases so with
    | false => simp [capture]
    | true =>
      cases target with
      | fullPage => simp [capture] at h
      | selector s =>
        rcases hd : dom s with _ | ⟨e, r⟩ <;> simp [capture, hd] at h ⊢

/-- Witness for C6 at a concrete DOM and file system: the zero-match capture
fails and writes nothing, and a failing capture leaves the one existing file
untouched. -/
theorem C6_capture_witness :
    (capture true sampleDom (CaptureTarget.selector "#missing")
        "verification/debug_fail.png" ["old.png"] =
      (["old.png"], some (CaptureError.elementNotFound "#missing")) ∧
     ("verification/debug_fail.png" ∉ (["old.png"] : List String) →
      "verification/debug_fail.png" ∉
        (capture true sampleDom (CaptureTarget.selector "#missing")
          "verification/debug_fail.png" ["old.png"]).1)) ∧
    (capture true sampleDom (CaptureTarget.selector "#missing")
      "verification/debug_fail.png" ["old.png"]).1 = ["old.png"] :=
  ⟨(C6_capture_spec sampleDom "#missing" "verification/debug_fail.png"
      ["old.png"]).1 (by decide),
   (C6_capture_spec sampleDom "#missing" "verification/debug_fail.png"
      ["old.png"]).2.2 true (CaptureTarget.selector "#missing")
     (CaptureError.elementNotFound "#missing") (by decide)⟩

/-- C7: closing a session never raises; a second close on the session
returned by a first close is a no-op that again raises nothing; and closing
an already-closed or already-failed session raises nothing. -/
theorem C7_close_idempotent (s : Session) :
    (closeSession s).2 = none ∧
    closeSession (closeSession s).1 = ((closeSession s).1, none) ∧
    (∀ r : Bool,
      closeSession ⟨SessionState.shut, r⟩ = (⟨SessionState.shut, r⟩, none) ∧
      (closeSession ⟨SessionState.failed, r⟩).2 = none) := by
  obtain ⟨st, r⟩ := s
  cases st <;> exact ⟨rfl, rfl, fun r => ⟨rfl, rfl⟩⟩

/-- C8: dispatching a synthetic dragenter event at the drop zone makes
classList.contains drag-over evaluate to true immediately: dispatch runs the
listener synchronously and the check on the resulting state is true, with no
wait in between. -/
theorem C8_dragenter_drag_over (z : DropZone) :
    classListContains (dispatchEvent z "dragenter") "drag-over" = true := by
  unfold dispatchEvent onDragenter classListAdd classListContains
  by_cases h : "drag-over" ∈ z.classes <;> simp [h]

theorem exitStatus_eq_zero_iff (r : RunResult) :
    exitStatus r = 0 ↔ r.exc = none := by
  rcases r with ⟨t, e⟩
  cases e <;> simp [exitStatus]

theorem exitStatus_eq_one_iff (r : RunResult) :
    exitStatus r = 1 ↔ r.exc ≠ none := by
  rcases r with ⟨t, e⟩
  cases e <;> simp [exitStatus]

theorem csp_ops_closeCount (w : Fin 5 → Bool) :
    closeCount (opsOf (cspInstrs w)) = 0 := rfl

theorem messgeraet_ops_closeCount (w : Fin 8 → Bool) :
    closeCount (opsOf (messgeraetInstrs w)) = 0 := rfl

theorem settings_ops_closeCount (w : Fin 6 → Bool) :
    closeCount (opsOf (settingsInstrs w)) = 0 := rfl

theorem table_ops_closeCount (w : Fin 10 → Bool) :
    closeCount (opsOf (tableInstrs w)) = 0 := rfl

theorem allOk_csp_iff (w : Fin 5 → Bool) :
    allOk (cspInstrs w) = true ↔ ∀ i, w i = true := by
  simp [cspInstrs, allOk]
  constructor
  · rintro ⟨h0, h1, h2, h3, h4⟩ i
    fin_cases i <;> assumption
  · intro h
    exact ⟨h 0, h 1, h 2, h 3, h 4⟩

theorem allOk_messgeraet_iff (w : Fin 8 → Bool) :
    allOk (messgeraetInstrs w) = true ↔ ∀ i, w i = true := by
  simp [messgeraetInstrs, allOk]
  constructor
  · rintro ⟨h0, h1, h2, h3, h4, h5, h6, h7⟩ i
    fin_cases i <;> assumption
  · intro h
    exact ⟨h 0, h 1, h 2, h 3, h 4, h 5, h 6, h 7⟩

theorem allOk_settings_iff (w : Fin 6 → Bool) :
    allOk (settingsInstrs w) = true ↔ ∀ i, w i = true := by
  simp [settingsInstrs, allOk]
  constructor
  · rintro ⟨h0, h1, h2, h3, h4, h5⟩ i
    fin_cases i <;> assumption
  · intro h
    exact ⟨h 0, h 1, h 2, h 3, h 4, h 5⟩

/-- C1 counterexample: in a verify_messgeraet run whose first browser call
fails, the exception propagates and the browser is closed zero times, not
once. -/
theorem C1_counterexample :
    closeCount (verify_messgeraet (fun _ => false)).trace = 0 ∧
    (verify_messgeraet (fun _ => false)).exc ≠ none := by decide

/-- C1 (amended): verify_settings closes its Session exactly once on every
path, success or failure, via its try/finally; verify_messgeraet closes its
Session exactly once when all its Steps succeed and zero times when any Step
fails, because the failure skips the unguarded trailing browser.close(). -/
theorem C1_amended_close_exactly_once :
    (∀ w : Fin 6 → Bool, closeCount (verify_settings_main w).trace = 1) ∧
    (∀ w : Fin 8 → Bool, closeCount (verify_messgeraet w).trace =
      if (verify_messgeraet w).exc = none then 1 else 0) := by
  constructor
  · intro w
    have h1 : closeCount (verify_settings w).trace = 0 :=
      (runSeq_closeCount _ _ (settings_ops_closeCount w)).trans rfl
    show closeCount
      ([Op.launch, Op.newPage] ++ (verify_settings w).trace ++ [Op.close]) = 1
    rw [closeCount_append, closeCount_append, h1]
    rfl
  · intro w
    unfold verify_messgeraet
    rcases hx : runSeq [Op.launch, Op.newPage] (messgeraetInstrs w) with ⟨t, e⟩
    have hct : closeCount t = 0 := by
      have h := runSeq_closeCount (messgeraetInstrs w) [Op.launch, Op.newPage]
        (messgeraet_ops_closeCount w)
      rw [hx] at h
      exact h
    rw [runSeq_append, hx]
    cases e with
    | none =>
      show closeCount (t ++ [Op.close]) =
        if (none : Option String) = (none : Option String) then 1 else 0
      rw [if_pos rfl, closeCount_append, hct]
      rfl
    | some e =>
      show closeCount t =
        if (some e : Option String) = (none : Option String) then 1 else 0
      rw [if_neg (by simp), hct]

/-- C9: verify_csp never propagates a post-launch step exception: for every
world of step outcomes the function returns normally (no uncaught
exception), the process exit status is zero, the browser is closed exactly
once, and whenever some step failed an Error message was printed. -/
theorem C9_verify_csp_swallows_failures (w : Fin 5 → Bool) :
    (verify_csp w).exc = none ∧
    exitStatus (verify_csp w) = 0 ∧
    closeCount (verify_csp w).trace = 1 ∧
    ((∃ i, w i = false) →
      ∃ e, Op.printed ("Error: " ++ e) ∈ (verify_csp w).trace) := by
  unfold verify_csp
  rcases hx : runSeq
    [Op.launch, Op.newPage, Op.onEvent "console", Op.onEvent "pageerror",
     Op.printed "Loading file URL"] (cspInstrs w) with ⟨t, e⟩
  have hct : closeCount t = 0 := by
    have h := runSeq_closeCount (cspInstrs w)
      [Op.launch, Op.newPage, Op.onEvent "console", Op.onEvent "pageerror",
       Op.printed "Loading file URL"] (csp_ops_closeCount w)
    rw [hx] at h
    exact h
  cases e with
  | none =>
    refine ⟨rfl, rfl, ?_, ?_⟩
    · show closeCount (t ++ [Op.close]) = 1
      rw [closeCount_append, hct]
      rfl
    · rintro ⟨i, hi⟩
      have hall : allOk (cspInstrs w) = true := by
        have hiff := runSeq_exc_none_iff (cspInstrs w)
          [Op.launch, Op.newPage, Op.onEvent "console", Op.onEvent "pageerror",
           Op.printed "Loading file URL"]
        rw [hx] at hiff
        exact hiff.mp rfl
      have hw := (allOk_csp_iff w).mp hall i
      rw [hi] at hw
      exact absurd hw (by simp)
  | some e =>
    refine ⟨rfl, rfl, ?_, fun _ => ⟨e, ?_⟩⟩
    · show closeCount (t ++ [Op.printed ("Error: " ++ e), Op.close]) = 1
      rw [closeCount_append, hct]
      rfl
    · show Op.printed ("Error: " ++ e) ∈
        t ++ [Op.printed ("Error: " ++ e), Op.close]
      simp

/-- Witness for C9: with every post-launch call failing, verify_csp still
returns normally with exit status zero, one close, and an Error print. -/
theorem C9_verify_csp_witness :
    (verify_csp (fun _ => false)).exc = none ∧
    exitStatus (verify_csp (fun _ => false)) = 0 ∧
    closeCount (verify_csp (fun _ => false)).trace = 1 ∧
    (∃ e, Op.printed ("Error: " ++ e) ∈ (verify_csp (fun _ => false)).trace) :=
  ⟨(C9_verify_csp_swallows_failures (fun _ => false)).1,
   (C9_verify_csp_swallows_failures (fun _ => false)).2.1,
   (C9_verify_csp_swallows_failures (fun _ => false)).2.2.1,
   (C9_verify_csp_swallows_failures (fun _ => false)).2.2.2 ⟨0, rfl⟩⟩

theorem verify_csp_exc_none (w : Fin 5 → Bool) : (verify_csp w).exc = none := by
  unfold verify_csp
  rcases hx : runSeq
    [Op.launch, Op.newPage, Op.onEvent "console", Op.onEvent "pageerror",
     Op.printed "Loading file URL"] (cspInstrs w) with ⟨t, e⟩
  cases e <;> rfl

/-- C4 counterexample: a verify_csp run whose every post-launch step fails
(the Error print shows a step did fail) still exits with status zero, so a
failed Step does not yield a non-zero exit status. -/
theorem C4_counterexample :
    exitStatus (verify_csp (fun _ => false)) = 0 ∧
    Op.printed "Error: goto file://cwd/index.html" ∈
      (verify_csp (fun _ => false)).trace := by decide

theorem dragDropRun_exc_none_iff (w : Fin 11 → Bool) :
    (dragDropRun w).exc = none ↔
      ((w 0 = true ∧ w 1 = true ∧ w 2 = true ∧ w 3 = true) ∧
       ((w 4 = false ∧ w 5 = true) ∨
        (w 4 = true ∧ w 6 = true ∧ w 7 = true ∧ w 8 = true ∧ w 9 = true ∧
         w 10 = true))) := by
  unfold dragDropRun
  rcases hx : runSeq
    [Op.launch, Op.newPage, Op.onEvent "console", Op.onEvent "pageerror"]
    [(w 0, Op.goto "http://localhost:8000/index.html",
       "goto http://localhost:8000/index.html"),
     (w 1, Op.waitLoadState "networkidle", "wait_for_load_state networkidle"),
     (true, Op.printed "Clicking workflow link...", ""),
     (w 2, Op.click "a[href=#workflow]", "click a[href=#workflow]"),
     (w 3, Op.waitTimeout 500, "wait_for_timeout 500")] with ⟨t, e⟩
  have hiff := runSeq_exc_none_iff
    [(w 0, Op.goto "http://localhost:8000/index.html",
       "goto http://localhost:8000/index.html"),
     (w 1, Op.waitLoadState "networkidle", "wait_for_load_state networkidle"),
     (true, Op.printed "Clicking workflow link...", ""),
     (w 2, Op.click "a[href=#workflow]", "click a[href=#workflow]"),
     (w 3, Op.waitTimeout 500, "wait_for_timeout 500")]
    [Op.launch, Op.newPage, Op.onEvent "console", Op.onEvent "pageerror"]
  rw [hx] at hiff
  cases e with
  | some e =>
    constructor
    · intro h
      simp at h
    · rintro ⟨⟨h0, h1, h2, h3⟩, -⟩
      have hall : allOk
          [(w 0, Op.goto "http://localhost:8000/index.html",
             "goto http://localhost:8000/index.html"),
           (w 1, Op.waitLoadState "networkidle",
             "wait_for_load_state networkidle"),
           (true, Op.printed "Clicking workflow link...", ""),
           (w 2, Op.click "a[href=#workflow]", "click a[href=#workflow]"),
           (w 3, Op.waitTimeout 500, "wait_for_timeout 500")] = true := by
        simp [allOk, h0, h1, h2, h3]
      simpa using hiff.mpr hall
  | none =>
    have hall := hiff.mp rfl
    simp only [allOk, List.all_cons, List.all_nil, Bool.and_eq_true] at hall
    obtain ⟨h0, h1, -, h2, h3, -⟩ := hall
    cases h4 : w 4 with
    | false =>
      cases h5 : w 5 with
      | false => simp [h0, h1, h2, h3, h4, h5]
      | true => simp [h0, h1, h2, h3, h4, h5]
    | true =>
      simp [h0, h1, h2, h3, h4, runSeq_exc_none_iff, dragPart2Instrs, allOk,
        and_assoc]

/-- C4 (amended): if all Steps succeed the exit status is zero, and an
uncaught Step failure — any failure in verify_messgeraet or verify_settings,
and in verify_drag_drop any step failure other than a guarded drop-zone wait
failure whose debug capture succeeds — yields exit status one; but a handled
Step failure — every post-launch failure in verify_csp, and a drop-zone wait
failure in verify_drag_drop whose debug screenshot succeeds — exits with
status zero, so a zero exit status does not imply that all Steps completed.
The verify_drag_drop conjuncts characterise its exit status completely over
all outcome worlds. -/
theorem C4_amended_exit_status :
    (∀ w : Fin 5 → Bool, exitStatus (verify_csp w) = 0) ∧
    (∀ w : Fin 8 → Bool,
      exitStatus (verify_messgeraet w) = 0 ↔ ∀ i, w i = true) ∧
    (∀ w : Fin 6 → Bool,
      exitStatus (verify_settings_main w) = 0 ↔ ∀ i, w i = true) ∧
    (∀ w : Fin 11 → Bool,
      exitStatus (dragDropRun w) = 0 ↔
        ((w 0 = true ∧ w 1 = true ∧ w 2 = true ∧ w 3 = true) ∧
         ((w 4 = false ∧ w 5 = true) ∨
          (w 4 = true ∧ w 6 = true ∧ w 7 = true ∧ w 8 = true ∧ w 9 = true ∧
           w 10 = true)))) ∧
    (∀ w : Fin 11 → Bool,
      exitStatus (dragDropRun w) = 1 ↔
        ¬((w 0 = true ∧ w 1 = true ∧ w 2 = true ∧ w 3 = true) ∧
          ((w 4 = false ∧ w 5 = true) ∨
           (w 4 = true ∧ w 6 = true ∧ w 7 = true ∧ w 8 = true ∧ w 9 = true ∧
            w 10 = true)))) := by
  refine ⟨?_, ?_, ?_, ?_, ?_⟩
  · intro w
    exact (exitStatus_eq_zero_iff _).mpr (verify_csp_exc_none w)
  · intro w
    rw [exitStatus_eq_zero_iff]
    unfold verify_messgeraet
    rw [runSeq_exc_none_iff]
    have hsplit : allOk (messgeraetInstrs w ++ [(true, Op.close, "")]) =
        allOk (messgeraetInstrs w) := by
      simp [allOk]
    rw [hsplit, allOk_messgeraet_iff]
  · intro w
    rw [exitStatus_eq_zero_iff]
    show (verify_settings w).exc = none ↔ _
    unfold verify_settings
    rw [runSeq_exc_none_iff, allOk_settings_iff]
  · intro w
    rw [exitStatus_eq_zero_iff, dragDropRun_exc_none_iff]
  · intro w
    rw [exitStatus_eq_one_iff]
    exact not_congr (dragDropRun_exc_none_iff w)

/-- Witness for C4 (amended): an all-success verify_drag_drop run exits
zero, a handled wait failure exits zero, an uncaught mid-run step failure
(the drag-over screenshot, an unguarded step after the wait) exits one, and
an all-success verify_messgeraet run exits zero. -/
theorem C4_amended_exit_status_witness :
    exitStatus (dragDropRun (fun _ => true)) = 0 ∧
    exitStatus (dragDropRun (fun i => decide (i.val ≠ 4))) = 0 ∧
    exitStatus (dragDropRun (fun i => decide (i.val ≠ 8))) = 1 ∧
    exitStatus (verify_messgeraet (fun _ => true)) = 0 :=
  ⟨(C4_amended_exit_status.2.2.2.1 (fun _ => true)).mpr (by decide),
   (C4_amended_exit_status.2.2.2.1 (fun i => decide (i.val ≠ 4))).mpr
     (by decide),
   (C4_amended_exit_status.2.2.2.2 (fun i => decide (i.val ≠ 8))).mpr
     (by decide),
   (C4_amended_exit_status.2.1 (fun _ => true)).mpr (fun _ => rfl)⟩



theorem verify_table_goto_mem (w : Fin 10 → Bool) :
    Op.goto "http://localhost:8000/test-stromkreise-final.html" ∈
      (verify_table w).trace := by
  unfold verify_table tableInstrs
  rw [runSeq_cons, if_pos rfl]
  exact runSeq_head_mem _ _ _ _ _

/-- C3 counterexample: in a verify_drag_drop run whose drop-zone wait fails,
the failure handler runs (the Wait failed print and the debug screenshot are
in the trace) but the original failure is not re-raised: the run ends with
no uncaught exception, so the Wait error was swallowed. -/
theorem C3_counterexample :
    (dragDropRun (fun i => decide (i.val ≠ 4))).exc = none ∧
    Op.printed "Wait failed" ∈ (dragDropRun (fun i => decide (i.val ≠ 4))).trace ∧
    Op.screenshot "verification/debug_fail.png" ∈
      (dragDropRun (fun i => decide (i.val ≠ 4))).trace ∧
    Op.close ∉ (dragDropRun (fun i => decide (i.val ≠ 4))).trace := by decide

/-- C3 (amended): a Step failure short-circuits the remaining Steps of its
own function, and the registered failure handler performs its best-effort
diagnostic capture; but the original failure is not re-raised: in
verify_drag_drop the run function returns normally after printing and
capturing (skipping the remaining Steps and the close), and in the
verify_stromkreis main block the first scenario's error is printed,
screenshotted and swallowed, after which the second scenario's Steps still
run — so handled Wait and Interaction errors are not propagated. -/
theorem C3_amended_failure_handling :
    (∀ w : Fin 11 → Bool, w 0 = true → w 1 = true → w 2 = true → w 3 = true →
      w 4 = false → w 5 = true →
      (dragDropRun w).exc = none ∧
      Op.printed "Wait failed" ∈ (dragDropRun w).trace ∧
      Op.screenshot "verification/debug_fail.png" ∈ (dragDropRun w).trace ∧
      Op.screenshot "verification/normal_state.png" ∉ (dragDropRun w).trace ∧
      Op.close ∉ (dragDropRun w).trace) ∧
    (∀ (w1 : Fin 9 → Bool) (e : String), (verify_stromkreis w1).exc = some e →
      (verify_stromkreis_main w1 true (fun _ => true)).exc = none ∧
      Op.printed ("Error: " ++ e) ∈
        (verify_stromkreis_main w1 true (fun _ => true)).trace ∧
      Op.screenshot "verification/error.png" ∈
        (verify_stromkreis_main w1 true (fun _ => true)).trace ∧
      Op.goto "http://localhost:8000/test-stromkreise-final.html" ∈
        (verify_stromkreis_main w1 true (fun _ => true)).trace) := by
  constructor
  · intro w h0 h1 h2 h3 h4 h5
    have hval : dragDropRun w =
        ⟨[Op.launch, Op.newPage, Op.onEvent "console", Op.onEvent "pageerror",
          Op.goto "http://localhost:8000/index.html",
          Op.waitLoadState "networkidle", Op.printed "Clicking workflow link...",
          Op.click "a[href=#workflow]", Op.waitTimeout 500,
          Op.waitFor "#file-drop-zone" "visible", Op.printed "Wait failed",
          Op.screenshot "verification/debug_fail.png"], none⟩ := by
      unfold dragDropRun
      rw [h0, h1, h2, h3, h4, h5]
      rfl
    rw [hval]
    decide
  · intro w1 e he
    have hgoto := verify_table_goto_mem (fun _ => true)
    rcases hx : verify_stromkreis w1 with ⟨t1, e1⟩
    rw [hx] at he
    have he1 : e1 = some e := he
    subst he1
    unfold verify_stromkreis_main
    rw [hx]
    simp only [stromMainCont]
    rw [if_neg (by decide)]
    refine ⟨rfl, ?_, ?_, ?_⟩
    · simp [List.mem_append]
    · simp [List.mem_append]
    · simp only [List.mem_append]
      tauto

/-- Witness for C3 (amended): concrete runs exercising both parts — a
drag-drop run with only its guarded wait failing but a successful debug
capture, and a stromkreis main run whose first scenario fails at its goto. -/
theorem C3_amended_failure_handling_witness :
    ((dragDropRun (fun i => decide (i.val ≠ 4))).exc = none ∧
      Op.printed "Wait failed" ∈
        (dragDropRun (fun i => decide (i.val ≠ 4))).trace ∧
      Op.screenshot "verification/debug_fail.png" ∈
        (dragDropRun (fun i => decide (i.val ≠ 4))).trace ∧
      Op.screenshot "verification/normal_state.png" ∉
        (dragDropRun (fun i => decide (i.val ≠ 4))).trace ∧
      Op.close ∉ (dragDropRun (fun i => decide (i.val ≠ 4))).trace) ∧
    ((verify_stromkreis_main (fun _ => false) true (fun _ => true)).exc = none ∧
      Op.printed
          "Error: goto http://localhost:8080/test-editable-stromkreise.html" ∈
        (verify_stromkreis_main (fun _ => false) true (fun _ => true)).trace ∧
      Op.screenshot "verification/error.png" ∈
        (verify_stromkreis_main (fun _ => false) true (fun _ => true)).trace ∧
      Op.goto "http://localhost:8000/test-stromkreise-final.html" ∈
        (verify_stromkreis_main (fun _ => false) true (fun _ => true)).trace) := by
  constructor
  · exact C3_amended_failure_handling.1 (fun i => decide (i.val ≠ 4))
      (by decide) (by decide) (by decide) (by decide) (by decide) (by decide)
  · exact C3_amended_failure_handling.2 (fun _ => false)
      "goto http://localhost:8080/test-editable-stromkreise.html" (by decide)


theorem closeCount_nil : closeCount [] = 0 := rfl

theorem strom_ops_closeCount (w : Fin 9 → Bool) :
    closeCount (opsOf (stromInstrs w)) = 0 := by
  cases h3 : w 3 <;> cases h5 : w 5 <;> cases h6 : w 6 <;>
    simp [stromInstrs, h3, h5, h6, opsOf, closeCount, isClose,
      List.countP_cons, List.countP_append, List.countP_nil]

theorem strom_trace_closeCount (w : Fin 9 → Bool) :
    closeCount (verify_stromkreis w).trace = 0 :=
  (runSeq_closeCount _ _ (strom_ops_closeCount w)).trans rfl

theorem table_trace_closeCount (w : Fin 10 → Bool) :
    closeCount (verify_table w).trace = 0 :=
  (runSeq_closeCount _ _ (table_ops_closeCount w)).trans rfl

theorem strom_no_table_goto (w : Fin 9 → Bool) :
    Op.goto "http://localhost:8000/test-stromkreise-final.html" ∉
      (verify_stromkreis w).trace := by
  intro hmem
  unfold verify_stromkreis at hmem
  rcases runSeq_trace_sub (stromInstrs w) [] _ hmem with h | h
  · simp at h
  · revert h
    cases h3 : w 3 <;> cases h5 : w 5 <;> cases h6 : w 6 <;>
      simp [stromInstrs, h3, h5, h6, opsOf]

/-- C10 counterexample: when the first scenario fails and the diagnostic
error screenshot itself raises, the main block aborts: verify_table is never
attempted and browser.close() is never invoked, so neither happens always. -/
theorem C10_counterexample :
    closeCount
      (verify_stromkreis_main (fun _ => false) false (fun _ => true)).trace = 0 ∧
    Op.goto "http://localhost:8000/test-stromkreise-final.html" ∉
      (verify_stromkreis_main (fun _ => false) false (fun _ => true)).trace ∧
    Op.screenshot "verification/error.png" ∈
      (verify_stromkreis_main (fun _ => false) false (fun _ => true)).trace ∧
    (verify_stromkreis_main (fun _ => false) false (fun _ => true)).exc =
      some "screenshot verification/error.png" := by decide

/-- C10 (amended): one browser serves both scenarios; after verify_stromkreis
completes, or raises with the exception caught, printed and the error
screenshot at verification/error.png attempted, a second page in a fresh
1280x720 context is created and verify_table is attempted with
browser.close() invoked exactly once in the final finally block — provided
the error screenshot, when needed, succeeds; if that screenshot itself
raises, its exception escapes the block, verify_table is not attempted and
browser.close() is not invoked. -/
theorem C10_amended_main_block (w1 : Fin 9 → Bool) (berr : Bool)
    (w2 : Fin 10 → Bool) :
    ((verify_stromkreis w1).exc = none →
      closeCount (verify_stromkreis_main w1 berr w2).trace = 1 ∧
      Op.newContext 1280 720 ∈ (verify_stromkreis_main w1 berr w2).trace ∧
      Op.goto "http://localhost:8000/test-stromkreise-final.html" ∈
        (verify_stromkreis_main w1 berr w2).trace ∧
      (verify_stromkreis_main w1 berr w2).exc = (verify_table w2).exc) ∧
    (∀ e, (verify_stromkreis w1).exc = some e → berr = true →
      closeCount (verify_stromkreis_main w1 berr w2).trace = 1 ∧
      Op.printed ("Error: " ++ e) ∈ (verify_stromkreis_main w1 berr w2).trace ∧
      Op.screenshot "verification/error.png" ∈
        (verify_stromkreis_main w1 berr w2).trace ∧
      Op.newContext 1280 720 ∈ (verify_stromkreis_main w1 berr w2).trace ∧
      Op.goto "http://localhost:8000/test-stromkreise-final.html" ∈
        (verify_stromkreis_main w1 berr w2).trace ∧
      (verify_stromkreis_main w1 berr w2).exc = (verify_table w2).exc) ∧
    (∀ e, (verify_stromkreis w1).exc = some e → berr = false →
      closeCount (verify_stromkreis_main w1 berr w2).trace = 0 ∧
      Op.screenshot "verification/error.png" ∈
        (verify_stromkreis_main w1 berr w2).trace ∧
      Op.goto "http://localhost:8000/test-stromkreise-final.html" ∉
        (verify_stromkreis_main w1 berr w2).trace ∧
      (verify_stromkreis_main w1 berr w2).exc =
        some "screenshot verification/error.png") := by
  have hgoto := verify_table_goto_mem w2
  refine ⟨?_, ?_, ?_⟩
  · intro hnone
    rcases hx : verify_stromkreis w1 with ⟨t1, e1⟩
    rw [hx] at hnone
    have he1 : e1 = none := hnone
    subst he1
    have hc1 : closeCount t1 = 0 := by
      have h := strom_trace_closeCount w1
      rw [hx] at h
      exact h
    unfold verify_stromkreis_main
    rw [hx]
    refine ⟨?_, ?_, ?_, ?_⟩
    · simp [stromMainCont, closeCount_append, closeCount_cons, closeCount_nil,
        isClose, hc1, table_trace_closeCount]
    · simp [stromMainCont, List.mem_append]
    · simp [stromMainCont, List.mem_append, hgoto]
    · simp [stromMainCont]
  · intro e he hb
    subst hb
    rcases hx : verify_stromkreis w1 with ⟨t1, e1⟩
    rw [hx] at he
    have he1 : e1 = some e := he
    subst he1
    have hc1 : closeCount t1 = 0 := by
      have h := strom_trace_closeCount w1
      rw [hx] at h
      exact h
    unfold verify_stromkreis_main
    rw [hx]
    refine ⟨?_, ?_, ?_, ?_, ?_, ?_⟩
    · simp [stromMainCont, closeCount_append, closeCount_cons, closeCount_nil,
        isClose, hc1, table_trace_closeCount]
    · simp [stromMainCont, List.mem_append]
    · simp [stromMainCont, List.mem_append]
    · simp [stromMainCont, List.mem_append]
    · simp [stromMainCont, List.mem_append, hgoto]
    · simp [stromMainCont]
  · intro e he hb
    subst hb
    rcases hx : verify_stromkreis w1 with ⟨t1, e1⟩
    rw [hx] at he
    have he1 : e1 = some e := he
    subst he1
    have hc1 : closeCount t1 = 0 := by
      have h := strom_trace_closeCount w1
      rw [hx] at h
      exact h
    have hng : Op.goto "http://localhost:8000/test-stromkreise-final.html" ∉
        t1 := by
      have h := strom_no_table_goto w1
      rw [hx] at h
      exact h
    unfold verify_stromkreis_main
    rw [hx]
    refine ⟨?_, ?_, ?_, ?_⟩
    · simp [stromMainCont, closeCount_append, closeCount_cons, closeCount_nil,
        isClose, hc1]
    · simp [stromMainCont, List.mem_append]
    · simp [stromMainCont, List.mem_append, hng]
    · simp [stromMainCont]

/-- Witness for C10 (amended): concrete runs of all three branches — first
scenario succeeding, failing with a successful error screenshot, and failing
with a failing error screenshot. -/
theorem C10_amended_main_block_witness :
    closeCount
      (verify_stromkreis_main (fun _ => true) true (fun _ => true)).trace = 1 ∧
    closeCount
      (verify_stromkreis_main (fun _ => false) true (fun _ => true)).trace = 1 ∧
    closeCount
      (verify_stromkreis_main (fun _ => false) false (fun _ => true)).trace = 0 :=
  ⟨((C10_amended_main_block (fun _ => true) true (fun _ => true)).1
      (by decide)).1,
   ((C10_amended_main_block (fun _ => false) true (fun _ => true)).2.1
      "goto http://localhost:8080/test-editable-stromkreise.html"
      (by decide) rfl).1,
   ((C10_amended_main_block (fun _ => false) false (fun _ => true)).2.2
      "goto http://localhost:8080/test-editable-stromkreise.html"
      (by decide) rfl).1⟩
